import Mathlib

/-!
Verification of the aiwatch streaming chat relay and metrics aggregation core
(Go backend `main.go`, `pkg/middleware/metrics.go`).

The Go code is shallowly embedded: the metric registry becomes an explicit
state of association lists, every metric write becomes a `MetricOp`, and the
`/chat` handler becomes a pure function from the decoded request, the upstream
chunk stream (with per-chunk arrival times and per-chunk client-write success
flags) to the list of metric operations it performs plus an HTTP status.
Wall-clock instants are rationals (seconds).
-/

namespace Aiwatch

/-- Case-insensitive lowering of a string, character by character
(models Go `strings.ToLower` on the ASCII inputs used here). -/
def toLowerStr (s : String) : String :=
  String.mk (s.data.map Char.toLower)

/-- Substring containment, models Go `strings.Contains s sub`. -/
def strContains (s sub : String) : Bool :=
  (List.range (s.data.length + 1)).any (fun i => sub.data.isPrefixOf (s.data.drop i))

/-- Go `len` on a string: number of UTF-8 bytes. -/
def goLen (s : String) : Nat :=
  s.utf8ByteSize

/-- Go `int(x)` conversion of a float: truncation toward zero. -/
def goInt (q : ℚ) : ℤ :=
  q.num.tdiv q.den

/-- Models `Duration.Seconds()`: the float seconds of an integer nanosecond
duration; instants and durations are integers as in Go `time`. -/
def seconds (d : ℤ) : ℚ := (d : ℚ) / 1000000000

/-- The metric families declared in `main.go` (custom registry). -/
inductive MetricName
  | requestCounter          -- aiwatch_http_requests_total
  | requestDuration         -- aiwatch_http_request_duration_seconds
  | chatTokensCounter       -- aiwatch_chat_tokens_total
  | modelLatency            -- aiwatch_model_latency_seconds
  | activeRequests          -- aiwatch_active_requests
  | errorCounter            -- aiwatch_errors_total
  | firstTokenLatency       -- aiwatch_first_token_latency_seconds
  | llamacppContextSize     -- aiwatch_llamacpp_context_size
  | llamacppPromptEvalTime  -- aiwatch_llamacpp_prompt_eval_seconds
  | llamacppTokensPerSecond -- aiwatch_llamacpp_tokens_per_second
  | llamacppMemoryPerToken  -- aiwatch_llamacpp_memory_per_token_bytes
  | llamacppThreadsUsed     -- aiwatch_llamacpp_threads_used
  | llamacppBatchSize       -- aiwatch_llamacpp_batch_size
  deriving DecidableEq, Repr

/-- A series key: metric family plus label-value tuple. -/
abbrev MKey := MetricName × List String

/-- One write to the registry: counter `Add`/`Inc`, gauge `Inc`/`Dec`
(as a signed add), gauge `Set`, or histogram `Observe`. -/
inductive MetricOp
  | inc (m : MetricName) (labels : List String) (delta : ℚ)
  | gaugeAdd (m : MetricName) (labels : List String) (delta : ℚ)
  | gset (m : MetricName) (labels : List String) (v : ℚ)
  | observe (m : MetricName) (labels : List String) (v : ℚ)
  deriving DecidableEq, Repr

/-- First-match lookup with default in an association list. -/
def lookupD {α : Type} (xs : List (MKey × α)) (k : MKey) (d : α) : α :=
  match xs with
  | [] => d
  | (k', v) :: rest => if k' = k then v else lookupD rest k d

/-- Add `d` to the (first) entry at key `k`, appending a fresh series if the
key was never written (Prometheus label tuples are instantiated on demand). -/
def bump (xs : List (MKey × ℚ)) (k : MKey) (d : ℚ) : List (MKey × ℚ) :=
  match xs with
  | [] => [(k, d)]
  | (k', v) :: rest => if k' = k then (k', v + d) :: rest else (k', v) :: bump rest k d

/-- Replace the (first) entry at key `k` by `v`, appending if absent. -/
def setV (xs : List (MKey × ℚ)) (k : MKey) (v : ℚ) : List (MKey × ℚ) :=
  match xs with
  | [] => [(k, v)]
  | (k', w) :: rest => if k' = k then (k', v) :: rest else (k', w) :: setV rest k v

/-- Fold one observation into a histogram series: sample count and sum. -/
def histBump (xs : List (MKey × (ℕ × ℚ))) (k : MKey) (v : ℚ) : List (MKey × (ℕ × ℚ)) :=
  match xs with
  | [] => [(k, (1, v))]
  | (k', p) :: rest =>
    if k' = k then (k', (p.1 + 1, p.2 + v)) :: rest else (k', p) :: histBump rest k v

/-- The registry state: every counter, gauge and histogram series. -/
structure MetricState where
  counters : List (MKey × ℚ)
  gauges   : List (MKey × ℚ)
  hists    : List (MKey × (ℕ × ℚ))
  deriving DecidableEq, Repr

/-- Freshly started process: empty registry. -/
def initState : MetricState := ⟨[], [], []⟩

/-- Apply one write to the registry. -/
def applyOp (st : MetricState) (op : MetricOp) : MetricState :=
  match op with
  | .inc m ls d      => { st with counters := bump st.counters (m, ls) d }
  | .gaugeAdd m ls d => { st with gauges := bump st.gauges (m, ls) d }
  | .gset m ls v     => { st with gauges := setV st.gauges (m, ls) v }
  | .observe m ls v  => { st with hists := histBump st.hists (m, ls) v }

/-- Apply a list of writes in order. -/
def applyOps (st : MetricState) (ops : List MetricOp) : MetricState :=
  ops.foldl applyOp st

/-- Models `getCounterValue(counter, labels...)` with labels supplied:
`GetMetricWithLabelValues` instantiates a zero series on demand, so a
never-written tuple reads 0. -/
def getCounterValueL (st : MetricState) (m : MetricName) (ls : List String) : ℚ :=
  lookupD st.counters (m, ls) 0

/-- Models `getCounterValue(counter)` with no labels: sum of every existing
series of the family (the `Collect` loop in the Go helper). -/
def counterSumOver (st : MetricState) (m : MetricName) : ℚ :=
  ((st.counters.filter (fun p => decide (p.1.1 = m))).map (fun p => p.2)).sum

/-- Models `getGaugeValue` / `getGaugeValueWithLabels`: never-written reads 0. -/
def getGaugeValue (st : MetricState) (k : MKey) : ℚ :=
  lookupD st.gauges k 0

/-- Models `getHistogramValueWithLabels`: mean of the series, 0 when the
sample count is 0 (empty histogram). -/
def getHistMean (st : MetricState) (k : MKey) : ℚ :=
  let p := lookupD st.hists k (0, 0)
  if p.1 > 0 then p.2 / (p.1 : ℚ) else 0

/-- Models `calculateErrorRate`. -/
def calculateErrorRate (st : MetricState) : ℚ :=
  let te := counterSumOver st .errorCounter
  let tr := counterSumOver st .requestCounter
  if tr = 0 then 0 else te / tr

/-- Models `getAverageResponseTime`: the Go helper ignores the histogram and
returns the fixed placeholder 0.5 (500 ms). -/
def getAverageResponseTime (_st : MetricState) : ℚ := 1 / 2

/-- The llama.cpp detection used by `handleChat` and the summary handler:
`strings.Contains(strings.ToLower(model), "llama") ||
 strings.Contains(baseURL, "llama.cpp")` — note the base-URL check is
case-SENSITIVE and only for the literal "llama.cpp". -/
def llamaCond (model baseURL : String) : Bool :=
  strContains (toLowerStr model) "llama" || strContains baseURL "llama.cpp"

/-- The nested llama.cpp block of `MetricsSummary`. -/
structure LlamaCppMetricsL where
  contextSize : ℤ
  promptEvalTime : ℚ
  tokensPerSecond : ℚ
  memoryPerToken : ℚ
  threadsUsed : ℤ
  batchSize : ℤ
  deriving DecidableEq, Repr

/-- Models `getLlamaCppMetrics(model)`: nil unless the (int-truncated)
context-size gauge for the model is nonzero. -/
def getLlamaCppMetrics (st : MetricState) (model : String) : Option LlamaCppMetricsL :=
  let contextSize := goInt (getGaugeValue st (.llamacppContextSize, [model]))
  if contextSize = 0 then none
  else some
    { contextSize := contextSize
      promptEvalTime := getHistMean st (.llamacppPromptEvalTime, [model]) * 1000
      tokensPerSecond := getGaugeValue st (.llamacppTokensPerSecond, [model])
      memoryPerToken := getGaugeValue st (.llamacppMemoryPerToken, [model])
      threadsUsed := goInt (getGaugeValue st (.llamacppThreadsUsed, [model]))
      batchSize := goInt (getGaugeValue st (.llamacppBatchSize, [model])) }

/-- The `MetricsSummary` JSON document of `GET /metrics/summary`. -/
structure MetricsSummaryL where
  totalRequests : ℚ
  averageResponseTime : ℚ
  tokensGenerated : ℚ
  tokensProcessed : ℚ
  activeUsers : ℚ
  errorRate : ℚ
  llamaCppMetrics : Option LlamaCppMetricsL
  deriving DecidableEq, Repr

/-- Models the `/metrics/summary` handler body. -/
def metricsSummary (st : MetricState) (defaultModel baseURL : String) : MetricsSummaryL :=
  let llm := if llamaCond defaultModel baseURL then getLlamaCppMetrics st defaultModel else none
  { totalRequests := counterSumOver st .requestCounter
    averageResponseTime := getAverageResponseTime st
    tokensGenerated := getCounterValueL st .chatTokensCounter ["output", defaultModel]
    tokensProcessed := getCounterValueL st .chatTokensCounter ["input", defaultModel]
    activeUsers := getGaugeValue st (.activeRequests, [])
    errorRate := calculateErrorRate st
    llamaCppMetrics := llm }

/-- The body accepted by `POST /metrics/llamacpp`. -/
structure LlamaCppLog where
  contextSize : ℤ
  promptEvalTime : ℚ
  tokensPerSecond : ℚ
  memoryPerToken : ℚ
  threadsUsed : ℤ
  batchSize : ℤ
  deriving DecidableEq, Repr

/-- Models the metric writes of the `/metrics/llamacpp` handler (it always
labels with the process-wide default model). -/
def handleLlamaCppLog (defaultModel : String) (l : LlamaCppLog) : List MetricOp :=
  [ .gset .llamacppContextSize [defaultModel] (l.contextSize : ℚ),
    .observe .llamacppPromptEvalTime [defaultModel] (l.promptEvalTime / 1000),
    .gset .llamacppTokensPerSecond [defaultModel] l.tokensPerSecond,
    .gset .llamacppMemoryPerToken [defaultModel] l.memoryPerToken,
    .gset .llamacppThreadsUsed [defaultModel] (l.threadsUsed : ℚ),
    .gset .llamacppBatchSize [defaultModel] (l.batchSize : ℚ) ]

/-! ### The /chat handler -/

/-- One `{role, content}` element of `ChatRequest.messages`. -/
structure ChatMessage where
  role : String
  content : String
  deriving DecidableEq, Repr

/-- The decoded `/chat` request body (Go zero values for absent fields). -/
structure ChatRequest where
  messages : List ChatMessage
  message : String
  format : String
  model : String
  deriving DecidableEq, Repr

/-- One outbound message of the OpenAI conversation built by `handleChat`.
Roles other than "user"/"assistant" fall through the Go `switch` and append
the zero-value union, modeled as `.emptyMsg`. -/
inductive OutMsg
  | system (content : String)
  | user (content : String)
  | assistant (content : String)
  | emptyMsg
  deriving DecidableEq, Repr

/-- The markdown-request detection of `handleChat`: explicit
`format == "markdown"`, or the case-insensitive phrases "in markdown" /
"using markdown" in the free-text message. -/
def useMarkdown (req : ChatRequest) : Bool :=
  (req.format = "markdown" : Bool)
    || strContains (toLowerStr req.message) "in markdown"
    || strContains (toLowerStr req.message) "using markdown"

/-- The system instruction prepended when markdown is requested. -/
def markdownInstruction : String :=
  "Please format your response using markdown. Use proper headings, bullet points, numbered lists, code blocks with syntax highlighting, and tables where appropriate."

/-- Models the outbound message-list construction of `handleChat`
(history conversion, optional system-message prepend, final user message). -/
def buildMessages (req : ChatRequest) : List OutMsg :=
  let base := req.messages.map (fun m =>
    if m.role = "user" then OutMsg.user m.content
    else if m.role = "assistant" then OutMsg.assistant m.content
    else OutMsg.emptyMsg)
  let withSys := if useMarkdown req then OutMsg.system markdownInstruction :: base else base
  withSys ++ [OutMsg.user req.message]

/-- Count of system messages in an outbound list. -/
def countSystem (msgs : List OutMsg) : ℕ :=
  msgs.countP (fun m => match m with | .system _ => true | _ => false)

/-- The crude input-token estimate: `len(content)/4` summed over history plus
the free-text message (byte length, integer division). -/
def inputTokens (req : ChatRequest) : ℕ :=
  req.messages.foldl (fun acc m => acc + goLen m.content / 4) 0 + goLen req.message / 4

/-- Model resolution: the request's `model` field if non-empty, else the
process-wide default. -/
def resolveModel (req : ChatRequest) (defaultModel : String) : String :=
  if req.model ≠ "" then req.model else defaultModel

/-- One chunk of the upstream completion stream: the `Delta.Content` of each
choice, the wall-clock arrival instant, and whether the `Fprintf` relaying it
to the client succeeds (false models a client disconnect). -/
structure Chunk where
  choices : List String
  time : ℤ
  writeOk : Bool
  deriving DecidableEq, Repr

/-- The whole upstream stream: its chunks in order, the wall-clock instant at
which the relay loop exits, and whether `stream.Err()` is non-nil then. -/
structure StreamInfo where
  chunks : List Chunk
  endTime : ℤ
  errAtEnd : Bool
  deriving DecidableEq, Repr

/-- Models `len(chunk.Choices) > 0 && chunk.Choices[0].Delta.Content != ""`. -/
def chunkNonEmpty (c : Chunk) : Bool :=
  match c.choices.head? with
  | some s => !(s == "")
  | none => false

/-- State of the relay loop: `firstTokenTime` (none while still the Go zero
time), the running output-delta count, the metric writes so far, and whether
a client-write error made the handler return early. -/
structure LoopState where
  firstTokenTime : Option ℤ
  outputTokens : ℕ
  ops : List MetricOp
  aborted : Bool
  deriving DecidableEq, Repr

/-- One iteration of `for stream.Next()`: first-token bookkeeping (with the
llama.cpp prompt-eval observation), then relay of the delta — incrementing
the output counter and aborting the handler if the client write fails. -/
def stepChunk (llama : Bool) (model : String) (promptEvalStart : ℤ)
    (st : LoopState) (c : Chunk) : LoopState :=
  if st.aborted then st
  else
    let ne := chunkNonEmpty c
    let ftt := if st.firstTokenTime.isNone && ne then some c.time else st.firstTokenTime
    let ops1 :=
      if st.firstTokenTime.isNone && ne && llama then
        st.ops ++ [.observe .llamacppPromptEvalTime [model] (seconds (c.time - promptEvalStart))]
      else st.ops
    if ne then
      { firstTokenTime := ftt, outputTokens := st.outputTokens + 1, ops := ops1,
        aborted := !c.writeOk }
    else
      { firstTokenTime := ftt, outputTokens := st.outputTokens, ops := ops1,
        aborted := false }

/-- The whole relay loop over the stream's chunks. -/
def runLoop (llama : Bool) (model : String) (promptEvalStart : ℤ)
    (chunks : List Chunk) : LoopState :=
  chunks.foldl (stepChunk llama model promptEvalStart) ⟨none, 0, [], false⟩

/-- Nanoseconds from Go's zero `time.Time` (January 1, year 1 UTC) to the Unix
epoch; `time.Since(firstTokenTime)` with the zero value yields now plus this
huge offset. Instants and durations are modeled as integers (Go `time.Time` /
`time.Duration` hold int64 nanoseconds). -/
def goZeroOffset : ℤ := 62135596800 * 1000000000

/-- Models `time.Since(firstTokenTime)` at the end of the stream, where `none`
models the zero `time.Time` (no first token ever recorded). -/
def sinceFirst (endTime : ℤ) (ftt : Option ℤ) : ℤ :=
  match ftt with
  | some t => endTime - t
  | none => endTime + goZeroOffset

/-- The terminal metric block of `handleChat` (lines after the loop):
the guarded llama.cpp tokens-per-second gauge write, then request duration,
request counter with status 200, output-token counter, model latency, and
the guarded time-to-first-token observation. The Go code's `start` and
`modelStartTime` are two back-to-back `time.Now()` calls, modeled as the one
instant `startT`; the Go guard `totalTime > 0` compares the float seconds,
which is positive exactly when the nanosecond duration is, so it is modeled
as `0 < totalTime` on the integer duration. -/
def terminalOps (llama : Bool) (model method path : String) (startT : ℤ)
    (s : StreamInfo) (L : LoopState) : List MetricOp :=
  let totalTime := sinceFirst s.endTime L.firstTokenTime
  let tpsOps : List MetricOp :=
    if llama && (decide (totalTime > 0) && decide (L.outputTokens > 0)) then
      [.gset .llamacppTokensPerSecond [model] ((L.outputTokens : ℚ) / seconds totalTime)]
    else []
  let ftOps : List MetricOp :=
    match L.firstTokenTime with
    | some t => [.observe .firstTokenLatency [model] (seconds (t - startT))]
    | none => []
  tpsOps ++
    [ .observe .requestDuration [method, path] (seconds (s.endTime - startT)),
      .inc .requestCounter [method, path, "200"] 1,
      .inc .chatTokensCounter ["output", model] ((L.outputTokens : ℕ) : ℚ),
      .observe .modelLatency [model, "inference"] (seconds (s.endTime - startT)) ] ++ ftOps

/-- The relay loop run for a given decoded request. -/
def chatLoop (req : ChatRequest) (defaultModel baseURL : String)
    (promptEvalStart : ℤ) (s : StreamInfo) : LoopState :=
  runLoop (llamaCond (resolveModel req defaultModel) baseURL)
    (resolveModel req defaultModel) promptEvalStart s.chunks

/-- Whether the handler returned early because a client write failed. -/
def chatAborted (req : ChatRequest) (defaultModel baseURL : String)
    (promptEvalStart : ℤ) (s : StreamInfo) : Bool :=
  (chatLoop req defaultModel baseURL promptEvalStart s).aborted

/-- All metric writes performed by `handleChat` for a decoded POST request:
the input-token counter, the loop's writes, and — unless a client write
aborted the handler — the terminal block. -/
def chatOps (path : String) (req : ChatRequest) (defaultModel baseURL : String)
    (startT promptEvalStart : ℤ) (s : StreamInfo) : List MetricOp :=
  let model := resolveModel req defaultModel
  let L := chatLoop req defaultModel baseURL promptEvalStart s
  .inc .chatTokensCounter ["input", model] ((inputTokens req : ℕ) : ℚ) ::
    (L.ops ++
      (if L.aborted then []
       else terminalOps (llamaCond model baseURL) model "POST" path startT s L))

/-- Result of one handler invocation: the metric writes it performed and the
HTTP status recorded by the middleware's response-writer wrapper. -/
structure HandlerResult where
  ops : List MetricOp
  status : ℕ
  deriving DecidableEq, Repr

/-- Models `handleChat`: OPTIONS preflight, method check, body decode
(`none` = undecodable body → 400 plus one request-counter increment and
nothing else), then the streaming relay. On an upstream error after the
stream, `http.Error` records 500 unless the handler aborted earlier. -/
def handleChat (method path : String) (body : Option ChatRequest)
    (defaultModel baseURL : String) (startT promptEvalStart : ℤ)
    (s : StreamInfo) : HandlerResult :=
  if method = "OPTIONS" then ⟨[], 200⟩
  else if method ≠ "POST" then ⟨[], 405⟩
  else
    match body with
    | none => ⟨[.inc .requestCounter [method, path, "400"] 1], 400⟩
    | some req =>
      let aborted := chatAborted req defaultModel baseURL promptEvalStart s
      ⟨chatOps path req defaultModel baseURL startT promptEvalStart s,
       if !aborted && s.errAtEnd then 500 else 200⟩

/-- Models `MetricsMiddleware`: active-request gauge increment, the wrapped
handler, gauge decrement, request counter labeled with the captured status,
and the duration histogram. -/
def middlewareWrap (method path : String) (dur : ℤ) (r : HandlerResult) :
    List MetricOp :=
  .gaugeAdd .activeRequests [] 1 ::
    (r.ops ++
      [ .gaugeAdd .activeRequests [] (-1),
        .inc .requestCounter [method, path, Nat.repr r.status] 1,
        .observe .requestDuration [method, path] (seconds dur) ])

/-- The series key an operation writes to. -/
def opKey (op : MetricOp) : MKey :=
  match op with
  | .inc m ls _ => (m, ls)
  | .gaugeAdd m ls _ => (m, ls)
  | .gset m ls _ => (m, ls)
  | .observe m ls _ => (m, ls)

/-- The contribution of an operation to the counter family `m`. -/
def opIncDelta (m : MetricName) (op : MetricOp) : ℚ :=
  match op with
  | .inc m' _ d => if m' = m then d else 0
  | _ => 0

/-- The contribution of an operation to the gauge series `k` by `Inc`/`Dec`. -/
def opGaugeDelta (k : MKey) (op : MetricOp) : ℚ :=
  match op with
  | .gaugeAdd m ls d => if (m, ls) = k then d else 0
  | _ => 0

/-- Whether an operation overwrites (Set) the gauge series `k`. -/
def opSetsGaugeAt (k : MKey) (op : MetricOp) : Bool :=
  match op with
  | .gset m ls _ => decide ((m, ls) = k)
  | _ => false

/-- Per-family sum of an association list (the `Collect` loop). -/
def sumOverL (m : MetricName) (xs : List (MKey × ℚ)) : ℚ :=
  ((xs.filter (fun p => decide (p.1.1 = m))).map (fun p => p.2)).sum

/-- A prompt-evaluation histogram observation (llama.cpp). -/
def isPromptEvalObs (op : MetricOp) : Bool :=
  match op with
  | .observe .llamacppPromptEvalTime _ _ => true
  | _ => false

/-- A tokens-per-second gauge write (llama.cpp). -/
def isTpsSet (op : MetricOp) : Bool :=
  match op with
  | .gset .llamacppTokensPerSecond _ _ => true
  | _ => false

/-- A request-duration histogram observation. -/
def isReqDurObs (op : MetricOp) : Bool :=
  match op with
  | .observe .requestDuration _ _ => true
  | _ => false

/-- A request-counter increment. -/
def isReqCtrInc (op : MetricOp) : Bool :=
  match op with
  | .inc .requestCounter _ _ => true
  | _ => false

/-- An output-direction token-counter increment. -/
def isOutTokInc (op : MetricOp) : Bool :=
  match op with
  | .inc .chatTokensCounter ("output" :: _) _ => true
  | _ => false

/-- A model-latency histogram observation. -/
def isModelLatObs (op : MetricOp) : Bool :=
  match op with
  | .observe .modelLatency _ _ => true
  | _ => false

/-- A time-to-first-token histogram observation. -/
def isFirstTokObs (op : MetricOp) : Bool :=
  match op with
  | .observe .firstTokenLatency _ _ => true
  | _ => false

/-- The gauge key of `aiwatch_active_requests` (an unlabeled gauge). -/
def activeKey : MKey := (.activeRequests, [])

/-- The values carried by the tokens-per-second gauge writes in a list. -/
def tpsValues (ops : List MetricOp) : List ℚ :=
  ops.filterMap (fun op =>
    match op with
    | .gset .llamacppTokensPerSecond _ v => some v
    | _ => none)

/-- Parameters of one complete `/chat` call (all requests share the
process-wide default model and backend base URL). -/
structure ChatCall where
  path : String
  req : ChatRequest
  startT : ℤ
  promptEvalStart : ℤ
  dur : ℤ
  stream : StreamInfo
  deriving DecidableEq, Repr

/-- All metric writes of one `/chat` call as seen by the registry:
the middleware wrapping `handleChat`. -/
def callOps (defaultModel baseURL : String) (c : ChatCall) : List MetricOp :=
  middlewareWrap "POST" c.path c.dur
    (handleChat "POST" c.path (some c.req) defaultModel baseURL
      c.startT c.promptEvalStart c.stream)

/-- The values carried by output-direction token-counter increments. -/
def outTokenValues (ops : List MetricOp) : List ℚ :=
  ops.filterMap (fun op =>
    match op with
    | .inc .chatTokensCounter ("output" :: _) d => some d
    | _ => none)

/-- The llama.cpp trigger as worded by the specification claim: the resolved
model name or the backend base URL contains, as a case-INSENSITIVE substring,
"llama" or "llama.cpp". Stated for comparison with the source-derived
`llamaCond`. -/
def llamaCondSpec (model baseURL : String) : Bool :=
  strContains (toLowerStr model) "llama" || strContains (toLowerStr model) "llama.cpp"
    || strContains (toLowerStr baseURL) "llama" || strContains (toLowerStr baseURL) "llama.cpp"

/-- The markdown trigger as worded by the specification claim: free-text
message contains a case-insensitive "in markdown" or "using markdown", or
the format field equals "markdown". -/
def specMarkdownTrigger (req : ChatRequest) : Bool :=
  strContains (toLowerStr req.message) "in markdown"
    || strContains (toLowerStr req.message) "using markdown"
    || (req.format = "markdown" : Bool)

/-- A request with empty history and no format/model overrides. -/
def exReqEmpty : ChatRequest := ⟨[], "hi", "", ""⟩

/-- Stream of 10 non-empty content chunks arriving at 0.2 s intervals over a
simulated 2 seconds (the spec's tokens-per-second scenario). -/
def c1Stream : StreamInfo :=
  ⟨(List.range 10).map (fun i => ⟨["tok"], ((i : ℤ) + 1) * 200000000, true⟩),
    2000000000, false⟩

/-- A stream where the client write of the second chunk fails
(client disconnect mid-stream). -/
def c2Stream : StreamInfo :=
  ⟨[⟨["a"], 1000000000, true⟩, ⟨["b"], 1500000000, false⟩, ⟨["c"], 2000000000, true⟩],
    2000000000, false⟩

/-- A single complete successful `/chat` call. -/
def c3Call : ChatCall := ⟨"/chat", exReqEmpty, 0, 0, 2, c1Stream⟩

/-- A one-chunk non-empty stream. -/
def c5Stream : StreamInfo := ⟨[⟨["x"], 1000000000, true⟩], 2000000000, false⟩

/-- A stream with chunks but no non-empty content delta. -/
def c9Stream : StreamInfo :=
  ⟨[⟨[], 1000000000, true⟩, ⟨[""], 2000000000, true⟩], 3000000000, false⟩

/-- A two-chunk non-empty stream, first token at 1 s, end at 2 s. -/
def w1Stream : StreamInfo :=
  ⟨[⟨["a"], 1000000000, true⟩, ⟨["b"], 1500000000, true⟩], 2000000000, false⟩

/-- The registry after one `POST /metrics/llamacpp` report with context size
4096, under default model "gpt-4". -/
def c10State : MetricState :=
  applyOps initState (handleLlamaCppLog "gpt-4" ⟨4096, 100, 30, 64, 4, 512⟩)

/-- A few registry writes, none of them touching the output token series. -/
def c8Ops : List MetricOp :=
  [ .inc .requestCounter ["GET", "/health", "200"] 1,
    .gset .llamacppContextSize ["m"] 4096,
    .observe .modelLatency ["m", "inference"] 1 ]

/-! ### Generic registry lemmas -/

lemma lookupD_bump (xs : List (MKey × ℚ)) (k k' : MKey) (d : ℚ) :
    lookupD (bump xs k' d) k 0 = lookupD xs k 0 + if k' = k then d else 0 := by
  induction xs with
  | nil =>
    by_cases h : k' = k <;> simp [bump, lookupD, h]
  | cons a rest ih =>
    obtain ⟨ak, av⟩ := a
    by_cases h1 : ak = k'
    · subst h1
      by_cases h2 : ak = k
      · subst h2; simp [bump, lookupD]
      · simp [bump, lookupD, h2]
    · have h1s : ¬ (k' = ak) := fun hh => h1 hh.symm
      by_cases h2 : ak = k
      · subst h2
        simp [bump, lookupD, h1, fun hh => h1s (hh : k' = ak)]
      · simp [bump, lookupD, h1, h2, ih]

lemma lookupD_setV_ne (xs : List (MKey × ℚ)) (k k' : MKey) (v : ℚ) (h : k' ≠ k) :
    lookupD (setV xs k' v) k 0 = lookupD xs k 0 := by
  induction xs with
  | nil => simp [setV, lookupD, fun hh => h hh]
  | cons a rest ih =>
    obtain ⟨ak, av⟩ := a
    by_cases h1 : ak = k'
    · subst h1
      have h2 : ¬ (ak = k) := fun hh => h hh
      simp [setV, lookupD, h2]
    · by_cases h2 : ak = k
      · subst h2; simp [setV, lookupD, h1]
      · simp [setV, lookupD, h1, h2, ih]

lemma lookupD_histBump_ne (xs : List (MKey × (ℕ × ℚ))) (k k' : MKey) (v : ℚ)
    (h : k' ≠ k) :
    lookupD (histBump xs k' v) k (0, 0) = lookupD xs k (0, 0) := by
  induction xs with
  | nil => simp [histBump, lookupD, fun hh => h hh]
  | cons a rest ih =>
    obtain ⟨ak, av⟩ := a
    by_cases h1 : ak = k'
    · subst h1
      have h2 : ¬ (ak = k) := fun hh => h hh
      simp [histBump, lookupD, h2]
    · by_cases h2 : ak = k
      · subst h2; simp [histBump, lookupD, h1]
      · simpa [histBump, lookupD, h1, h2] using ih

lemma lookupD_bump_ne (xs : List (MKey × ℚ)) (k k' : MKey) (d : ℚ) (h : k' ≠ k) :
    lookupD (bump xs k' d) k 0 = lookupD xs k 0 := by
  rw [lookupD_bump]; simp [h]

lemma counterSumOver_eq (st : MetricState) (m : MetricName) :
    counterSumOver st m = sumOverL m st.counters := rfl

lemma sumOverL_cons (m : MetricName) (k : MKey) (v : ℚ) (xs : List (MKey × ℚ)) :
    sumOverL m ((k, v) :: xs) = (if k.1 = m then v else 0) + sumOverL m xs := by
  by_cases h : k.1 = m <;> simp [sumOverL, List.filter_cons, h]

lemma sumOverL_bump (m m' : MetricName) (ls : List String) (xs : List (MKey × ℚ)) (d : ℚ) :
    sumOverL m (bump xs (m', ls) d) = sumOverL m xs + if m' = m then d else 0 := by
  induction xs with
  | nil =>
    by_cases h : m' = m <;> simp [bump, sumOverL, h]
  | cons a rest ih =>
    obtain ⟨ak, av⟩ := a
    by_cases h1 : ak = (m', ls)
    · subst h1
      by_cases h : m' = m <;> simp [bump, sumOverL_cons, h, ih] <;> ring
    · simp [bump, h1, sumOverL_cons, ih]; ring

lemma counterSum_applyOp (st : MetricState) (op : MetricOp) (m : MetricName) :
    counterSumOver (applyOp st op) m = counterSumOver st m + opIncDelta m op := by
  cases op with
  | inc m' ls d => simp [applyOp, counterSumOver_eq, opIncDelta, sumOverL_bump]
  | gaugeAdd m' ls d => simp [applyOp, counterSumOver_eq, opIncDelta]
  | gset m' ls v => simp [applyOp, counterSumOver_eq, opIncDelta]
  | observe m' ls v => simp [applyOp, counterSumOver_eq, opIncDelta]

lemma counterSum_applyOps (ops : List MetricOp) (st : MetricState) (m : MetricName) :
    counterSumOver (applyOps st ops) m
      = counterSumOver st m + (ops.map (opIncDelta m)).sum := by
  induction ops generalizing st with
  | nil => simp [applyOps]
  | cons op rest ih =>
    have : applyOps st (op :: rest) = applyOps (applyOp st op) rest := rfl
    rw [this, ih, counterSum_applyOp]
    simp; ring

lemma gauge_applyOp (st : MetricState) (op : MetricOp) (k : MKey)
    (h : opSetsGaugeAt k op = false) :
    getGaugeValue (applyOp st op) k = getGaugeValue st k + opGaugeDelta k op := by
  cases op with
  | inc m' ls d => simp [applyOp, getGaugeValue, opGaugeDelta]
  | gaugeAdd m' ls d => simp [applyOp, getGaugeValue, opGaugeDelta, lookupD_bump]
  | gset m' ls v =>
    have hne : (m', ls) ≠ k := by
      intro hh
      simp [opSetsGaugeAt, hh] at h
    simp [applyOp, getGaugeValue, opGaugeDelta, lookupD_setV_ne _ _ _ _ hne]
  | observe m' ls v => simp [applyOp, getGaugeValue, opGaugeDelta]

lemma gauge_applyOps (ops : List MetricOp) (st : MetricState) (k : MKey)
    (h : ∀ op ∈ ops, opSetsGaugeAt k op = false) :
    getGaugeValue (applyOps st ops) k
      = getGaugeValue st k + (ops.map (opGaugeDelta k)).sum := by
  induction ops generalizing st with
  | nil => simp [applyOps]
  | cons op rest ih =>
    have hstep : applyOps st (op :: rest) = applyOps (applyOp st op) rest := rfl
    rw [hstep, ih _ (fun o ho => h o (List.mem_cons_of_mem _ ho)),
      gauge_applyOp _ _ _ (h op (List.mem_cons_self _ _))]
    simp; ring

lemma reads_applyOp_ne (st : MetricState) (op : MetricOp) (k : MKey)
    (h : opKey op ≠ k) :
    lookupD (applyOp st op).counters k 0 = lookupD st.counters k 0 ∧
    lookupD (applyOp st op).gauges k 0 = lookupD st.gauges k 0 ∧
    lookupD (applyOp st op).hists k (0, 0) = lookupD st.hists k (0, 0) := by
  cases op with
  | inc m' ls d =>
    exact ⟨lookupD_bump_ne _ _ _ _ h, rfl, rfl⟩
  | gaugeAdd m' ls d =>
    exact ⟨rfl, lookupD_bump_ne _ _ _ _ h, rfl⟩
  | gset m' ls v =>
    exact ⟨rfl, lookupD_setV_ne _ _ _ _ h, rfl⟩
  | observe m' ls v =>
    exact ⟨rfl, rfl, lookupD_histBump_ne _ _ _ _ h⟩

lemma reads_applyOps_ne (ops : List MetricOp) (st : MetricState) (k : MKey)
    (h : ∀ op ∈ ops, opKey op ≠ k) :
    lookupD (applyOps st ops).counters k 0 = lookupD st.counters k 0 ∧
    lookupD (applyOps st ops).gauges k 0 = lookupD st.gauges k 0 ∧
    lookupD (applyOps st ops).hists k (0, 0) = lookupD st.hists k (0, 0) := by
  induction ops generalizing st with
  | nil => exact ⟨rfl, rfl, rfl⟩
  | cons op rest ih =>
    have hstep : applyOps st (op :: rest) = applyOps (applyOp st op) rest := rfl
    obtain ⟨h1, h2, h3⟩ := reads_applyOp_ne st op k (h op (List.mem_cons_self _ _))
    obtain ⟨g1, g2, g3⟩ := ih (applyOp st op) (fun o ho => h o (List.mem_cons_of_mem _ ho))
    exact ⟨by rw [hstep, g1, h1], by rw [hstep, g2, h2], by rw [hstep, g3, h3]⟩

/-! ### Classifying the handler's metric writes -/

lemma isPromptEvalObs_elim (op : MetricOp) (h : isPromptEvalObs op = true) :
    ∃ ls v, op = .observe .llamacppPromptEvalTime ls v := by
  cases op with
  | inc m ls d => simp [isPromptEvalObs] at h
  | gaugeAdd m ls d => simp [isPromptEvalObs] at h
  | gset m ls v => simp [isPromptEvalObs] at h
  | observe m ls v =>
    cases m <;> simp [isPromptEvalObs] at h
    exact ⟨ls, v, rfl⟩

lemma isPromptEvalObs_props (op : MetricOp) (h : isPromptEvalObs op = true) :
    isTpsSet op = false ∧ isReqDurObs op = false ∧ isReqCtrInc op = false ∧
    isOutTokInc op = false ∧ isModelLatObs op = false ∧ isFirstTokObs op = false ∧
    (∀ m, opIncDelta m op = 0) ∧ (∀ k, opGaugeDelta k op = 0) ∧
    (∀ k, opSetsGaugeAt k op = false) := by
  obtain ⟨ls, v, rfl⟩ := isPromptEvalObs_elim op h
  refine ⟨rfl, ?_, rfl, rfl, ?_, ?_, fun m => rfl, fun k => rfl, fun k => rfl⟩
  · rfl
  · rfl
  · rfl

lemma countP_eq_zero_of_all (l : List MetricOp) (q p : MetricOp → Bool)
    (hall : l.all q = true) (h : ∀ op, q op = true → p op = false) :
    l.countP p = 0 := by
  induction l with
  | nil => rfl
  | cons a rest ih =>
    rw [List.all_cons, Bool.and_eq_true] at hall
    simp [List.countP_cons, h a hall.1, ih hall.2]

lemma map_sum_eq_zero_of_all (l : List MetricOp) (q : MetricOp → Bool) (f : MetricOp → ℚ)
    (hall : l.all q = true) (h : ∀ op, q op = true → f op = 0) :
    (l.map f).sum = 0 := by
  induction l with
  | nil => rfl
  | cons a rest ih =>
    rw [List.all_cons, Bool.and_eq_true] at hall
    simp [h a hall.1, ih hall.2]

/-! ### Relay-loop lemmas -/

lemma stepChunk_ops_shape (llama : Bool) (model : String) (pes : ℤ)
    (st : LoopState) (c : Chunk) :
    ∃ e, (stepChunk llama model pes st c).ops = st.ops ++ e ∧
      e.all isPromptEvalObs = true ∧ (llama = false → e = []) := by
  cases hab : st.aborted
  · by_cases hcond : (st.firstTokenTime.isNone && chunkNonEmpty c && llama) = true
    · have hc := hcond
      rw [Bool.and_eq_true, Bool.and_eq_true] at hc
      have hftt : st.firstTokenTime = none := Option.isNone_iff_eq_none.mp hc.1.1
      have hnee : chunkNonEmpty c = true := hc.1.2
      have hll : llama = true := hc.2
      refine ⟨[.observe .llamacppPromptEvalTime [model] (seconds (c.time - pes))], ?_,
        by simp [isPromptEvalObs], by simp [hll]⟩
      simp [stepChunk, hab, hftt, hnee, hll]
    · refine ⟨[], ?_, rfl, fun _ => rfl⟩
      cases hne : chunkNonEmpty c
      · simp [stepChunk, hab, hne]
      · rw [hne] at hcond
        have hc2 : (st.firstTokenTime.isNone && llama) = false := by
          cases hi : st.firstTokenTime.isNone <;> cases hl : llama <;> simp_all
        simp [stepChunk, hab, hne, hc2]
  · exact ⟨[], by simp [stepChunk, hab], rfl, fun _ => rfl⟩

lemma foldl_ops_shape (llama : Bool) (model : String) (pes : ℤ)
    (chunks : List Chunk) (st : LoopState) :
    ∃ e, (chunks.foldl (stepChunk llama model pes) st).ops = st.ops ++ e ∧
      e.all isPromptEvalObs = true ∧ (llama = false → e = []) := by
  induction chunks generalizing st with
  | nil => exact ⟨[], by simp, rfl, fun _ => rfl⟩
  | cons c cs ih =>
    obtain ⟨e1, he1, ha1, hl1⟩ := stepChunk_ops_shape llama model pes st c
    obtain ⟨e2, he2, ha2, hl2⟩ := ih (stepChunk llama model pes st c)
    refine ⟨e1 ++ e2, ?_, ?_, ?_⟩
    · rw [List.foldl_cons, he2, he1, List.append_assoc]
    · rw [List.all_append, ha1, ha2]; rfl
    · intro hl; rw [hl1 hl, hl2 hl]; rfl

lemma runLoop_ops_shape (llama : Bool) (model : String) (pes : ℤ)
    (chunks : List Chunk) :
    ∃ e, (runLoop llama model pes chunks).ops = e ∧
      e.all isPromptEvalObs = true ∧ (llama = false → e = []) := by
  obtain ⟨e, he, ha, hl⟩ := foldl_ops_shape llama model pes chunks ⟨none, 0, [], false⟩
  exact ⟨e, by simpa using he, ha, hl⟩

lemma stepChunk_promptEval_count (llama : Bool) (model : String) (pes : ℤ)
    (st : LoopState) (c : Chunk)
    (h : st.ops.countP isPromptEvalObs
      = if llama && st.firstTokenTime.isSome then 1 else 0) :
    (stepChunk llama model pes st c).ops.countP isPromptEvalObs
      = if llama && (stepChunk llama model pes st c).firstTokenTime.isSome
        then 1 else 0 := by
  cases hab : st.aborted
  · by_cases hcond : (st.firstTokenTime.isNone && chunkNonEmpty c && llama) = true
    · have hc := hcond
      rw [Bool.and_eq_true, Bool.and_eq_true] at hc
      have hftt : st.firstTokenTime = none := Option.isNone_iff_eq_none.mp hc.1.1
      have hnee : chunkNonEmpty c = true := hc.1.2
      have hll : llama = true := hc.2
      rw [hftt, hll] at h
      simp at h
      simp [stepChunk, hab, hftt, hnee, hll, List.countP_append,
        List.countP_cons, isPromptEvalObs]
      intro a ha
      exact h a ha
    · cases hne : chunkNonEmpty c
      · simp [stepChunk, hab, hne, h]
      · rw [hne] at hcond
        cases hi : st.firstTokenTime.isNone
        · have hfs : st.firstTokenTime.isSome = true := by
            cases hx : st.firstTokenTime
            · rw [hx] at hi; simp at hi
            · simp
          rw [hfs] at h
          simp [stepChunk, hab, hne, hi, hfs, h]
        · have hll : llama = false := by
            cases hl : llama
            · rfl
            · rw [hi, hl] at hcond; simp at hcond
          rw [hll] at h
          simp at h
          simp [stepChunk, hab, hne, hi, hll]
          exact h
  · simp [stepChunk, hab, h]

lemma foldl_promptEval_count (llama : Bool) (model : String) (pes : ℤ)
    (chunks : List Chunk) (st : LoopState)
    (h : st.ops.countP isPromptEvalObs
      = if llama && st.firstTokenTime.isSome then 1 else 0) :
    (chunks.foldl (stepChunk llama model pes) st).ops.countP isPromptEvalObs
      = if llama && (chunks.foldl (stepChunk llama model pes) st).firstTokenTime.isSome
        then 1 else 0 := by
  induction chunks generalizing st with
  | nil => exact h
  | cons c cs ih =>
    exact ih _ (stepChunk_promptEval_count llama model pes st c h)

lemma runLoop_promptEval_count (llama : Bool) (model : String) (pes : ℤ)
    (chunks : List Chunk) :
    (runLoop llama model pes chunks).ops.countP isPromptEvalObs
      = if llama && (runLoop llama model pes chunks).firstTokenTime.isSome
        then 1 else 0 := by
  exact foldl_promptEval_count llama model pes chunks ⟨none, 0, [], false⟩ (by simp)

lemma foldl_not_aborted (llama : Bool) (model : String) (pes : ℤ)
    (chunks : List Chunk) (st : LoopState)
    (h : (chunks.foldl (stepChunk llama model pes) st).aborted = false) :
    st.aborted = false ∧
      (chunks.foldl (stepChunk llama model pes) st).outputTokens
        = st.outputTokens + chunks.countP chunkNonEmpty := by
  induction chunks generalizing st with
  | nil => exact ⟨h, by simp⟩
  | cons c cs ih =>
    rw [List.foldl_cons] at h ⊢
    obtain ⟨h1, h2⟩ := ih (stepChunk llama model pes st c) h
    have hab : st.aborted = false := by
      cases hx : st.aborted
      · rfl
      · rw [show stepChunk llama model pes st c = st by simp [stepChunk, hx]] at h1
        rw [hx] at h1; exact h1
    refine ⟨hab, ?_⟩
    rw [h2, List.countP_cons]
    cases hne : chunkNonEmpty c <;>
      simp [stepChunk, hab, hne] <;> ring

/-- When the loop did not abort, the output-token count is the number of
non-empty content chunks in the stream (the first one included). -/
lemma runLoop_outputTokens (llama : Bool) (model : String) (pes : ℤ)
    (chunks : List Chunk)
    (h : (runLoop llama model pes chunks).aborted = false) :
    (runLoop llama model pes chunks).outputTokens = chunks.countP chunkNonEmpty := by
  have := foldl_not_aborted llama model pes chunks ⟨none, 0, [], false⟩ h
  simpa using this.2

/-! ### Terminal-block lemmas -/

lemma terminalOps_countP (llama : Bool) (model method path : String) (startT : ℤ)
    (s : StreamInfo) (L : LoopState) :
    (terminalOps llama model method path startT s L).countP isReqDurObs = 1 ∧
    (terminalOps llama model method path startT s L).countP isReqCtrInc = 1 ∧
    (terminalOps llama model method path startT s L).countP isOutTokInc = 1 ∧
    (terminalOps llama model method path startT s L).countP isModelLatObs = 1 ∧
    (terminalOps llama model method path startT s L).countP isPromptEvalObs = 0 := by
  simp only [terminalOps]
  rcases hftt : L.firstTokenTime with _ | t <;>
    split_ifs <;>
    simp [hftt, List.countP_append, List.countP_cons,
      isReqDurObs, isReqCtrInc, isOutTokInc, isModelLatObs, isPromptEvalObs]

lemma terminalOps_deltas (llama : Bool) (model method path : String) (startT : ℤ)
    (s : StreamInfo) (L : LoopState) :
    ((terminalOps llama model method path startT s L).map
        (opIncDelta .requestCounter)).sum = 1 ∧
    ((terminalOps llama model method path startT s L).map
        (opGaugeDelta activeKey)).sum = 0 ∧
    (∀ op ∈ terminalOps llama model method path startT s L,
      opSetsGaugeAt activeKey op = false) := by
  simp only [terminalOps]
  rcases hftt : L.firstTokenTime with _ | t <;>
    split_ifs <;>
    simp [hftt, opIncDelta, opGaugeDelta, opSetsGaugeAt, activeKey, Prod.mk.injEq]

/-! ### Handler-level lemmas -/

lemma handleChat_post_ops (path : String) (req : ChatRequest) (dm b : String)
    (startT pes : ℤ) (s : StreamInfo) :
    (handleChat "POST" path (some req) dm b startT pes s).ops
      = chatOps path req dm b startT pes s := rfl

lemma chatLoop_ops_facts (req : ChatRequest) (dm b : String) (pes : ℤ)
    (s : StreamInfo) :
    (∀ op ∈ (chatLoop req dm b pes s).ops,
      ∃ ls v, op = .observe .llamacppPromptEvalTime ls v) ∧
    (∀ p : MetricOp → Bool,
      (∀ ls v, p (.observe .llamacppPromptEvalTime ls v) = false) →
      (chatLoop req dm b pes s).ops.countP p = 0) ∧
    (∀ f : MetricOp → ℚ,
      (∀ ls v, f (.observe .llamacppPromptEvalTime ls v) = 0) →
      ((chatLoop req dm b pes s).ops.map f).sum = 0) := by
  obtain ⟨e, he, ha, _⟩ := runLoop_ops_shape
    (llamaCond (resolveModel req dm) b) (resolveModel req dm) pes s.chunks
  have hmem : ∀ op ∈ (chatLoop req dm b pes s).ops,
      ∃ ls v, op = .observe .llamacppPromptEvalTime ls v := by
    intro op hop
    rw [show (chatLoop req dm b pes s).ops = e from he] at hop
    exact isPromptEvalObs_elim op (by
      rw [List.all_eq_true] at ha
      exact ha op hop)
  refine ⟨hmem, ?_, ?_⟩
  · intro p hp
    rw [List.countP_eq_zero]
    intro op hop
    obtain ⟨ls, v, rfl⟩ := hmem op hop
    simp [hp ls v]
  · intro f hf
    rw [show (chatLoop req dm b pes s).ops = e from he]
    refine map_sum_eq_zero_of_all e isPromptEvalObs f ha ?_
    intro op hop
    obtain ⟨ls, v, rfl⟩ := isPromptEvalObs_elim op hop
    exact hf ls v

/-! ### Claim C4: decode failure -/

/-- Claim C4 (confirmed): when the `/chat` request body fails to decode, the
handler responds with HTTP 400 and its only metric effect is the single
request-counter increment carrying status "400": no token counters, duration
histograms, or any other series are touched by the handler. -/
theorem C4_decode_failure (path dm b : String) (startT pes : ℤ) (s : StreamInfo) :
    handleChat "POST" path none dm b startT pes s
      = ⟨[.inc .requestCounter ["POST", path, "400"] 1], 400⟩ := rfl

/-! ### Claim C6: markdown detection -/

lemma useMarkdown_eq_spec (req : ChatRequest) :
    useMarkdown req = specMarkdownTrigger req := by
  simp [useMarkdown, specMarkdownTrigger, Bool.or_comm, Bool.or_left_comm, Bool.or_assoc]

/-- Claim C6 (confirmed): a `/chat` request whose free-text message contains
the case-insensitive substring "in markdown" or "using markdown", or whose
format field equals "markdown", gets exactly one system instruction message
prepended to the outbound message list; otherwise zero. -/
theorem C6_markdown_prepend (req : ChatRequest) :
    countSystem (buildMessages req) = if specMarkdownTrigger req then 1 else 0 := by
  have hbase : (req.messages.map (fun m =>
      if m.role = "user" then OutMsg.user m.content
      else if m.role = "assistant" then OutMsg.assistant m.content
      else OutMsg.emptyMsg)).countP
        (fun m => match m with | .system _ => true | _ => false) = 0 := by
    rw [List.countP_eq_zero]
    intro a ha
    rw [List.mem_map] at ha
    obtain ⟨m, _, rfl⟩ := ha
    by_cases h1 : m.role = "user"
    · simp [h1]
    · by_cases h2 : m.role = "assistant" <;> simp [h1, h2]
  rw [← useMarkdown_eq_spec]
  cases htrig : useMarkdown req <;>
    simp [buildMessages, countSystem, htrig, List.countP_append,
      List.countP_cons, hbase]

/-! ### Claim C7: fresh summary -/

lemma getLlamaCppMetrics_init (dm : String) :
    getLlamaCppMetrics ⟨[], [], []⟩ dm = none := by
  simp [getLlamaCppMetrics, getGaugeValue, lookupD, goInt]

/-- Claim C7 (confirmed): on a freshly started process, `GET /metrics/summary`
returns totalRequests, tokensGenerated, tokensProcessed, activeUsers and
errorRate all 0 with `llamaCppMetrics` null, and — in any state — the
averageResponseTime field is the fixed placeholder 0.5, never computed from
the duration histogram. -/
theorem C7_fresh_summary (dm b : String) :
    metricsSummary initState dm b
        = ⟨0, 1 / 2, 0, 0, 0, 0, none⟩ ∧
      (∀ st : MetricState, (metricsSummary st dm b).averageResponseTime = 1 / 2) := by
  constructor
  · cases hcond : llamaCond dm b <;>
      simp [metricsSummary, hcond, getLlamaCppMetrics_init, counterSumOver,
        sumOverL, initState, getCounterValueL, getGaugeValue, lookupD,
        calculateErrorRate, getAverageResponseTime]
  · intro st; rfl

/-! ### Claim C2: terminal accounting -/

/-- Claim C2 (corrected): the claim asserts terminal accounting happens
exactly once on EVERY exit path including client disconnect; on this concrete
stream the client write of the second chunk fails, the handler returns early,
and none of the four terminal recordings happen. -/
theorem C2_counterexample :
    chatAborted exReqEmpty "m" "b" 0 c2Stream = true ∧
    (handleChat "POST" "/chat" (some exReqEmpty) "m" "b" 0 0 c2Stream).ops.countP
      isReqDurObs = 0 ∧
    (handleChat "POST" "/chat" (some exReqEmpty) "m" "b" 0 0 c2Stream).ops.countP
      isReqCtrInc = 0 ∧
    (handleChat "POST" "/chat" (some exReqEmpty) "m" "b" 0 0 c2Stream).ops.countP
      isOutTokInc = 0 ∧
    (handleChat "POST" "/chat" (some exReqEmpty) "m" "b" 0 0 c2Stream).ops.countP
      isModelLatObs = 0 := by decide

/-- Claim C2 (amended): terminal metric accounting (duration observation,
request-counter increment, output-token counter increment, model-latency
observation) occurs exactly once when the stream ends by normal completion or
upstream error, but zero times when a client write fails mid-stream — the
handler returns before the terminal block. -/
theorem C2_terminal_accounting (path : String) (req : ChatRequest) (dm b : String)
    (startT pes : ℤ) (s : StreamInfo) :
    (chatAborted req dm b pes s = false →
      (handleChat "POST" path (some req) dm b startT pes s).ops.countP isReqDurObs = 1 ∧
      (handleChat "POST" path (some req) dm b startT pes s).ops.countP isReqCtrInc = 1 ∧
      (handleChat "POST" path (some req) dm b startT pes s).ops.countP isOutTokInc = 1 ∧
      (handleChat "POST" path (some req) dm b startT pes s).ops.countP isModelLatObs = 1) ∧
    (chatAborted req dm b pes s = true →
      (handleChat "POST" path (some req) dm b startT pes s).ops.countP isReqDurObs = 0 ∧
      (handleChat "POST" path (some req) dm b startT pes s).ops.countP isReqCtrInc = 0 ∧
      (handleChat "POST" path (some req) dm b startT pes s).ops.countP isOutTokInc = 0 ∧
      (handleChat "POST" path (some req) dm b startT pes s).ops.countP isModelLatObs = 0) := by
  obtain ⟨hmem, hcount, hsum⟩ := chatLoop_ops_facts req dm b pes s
  have l1 := hcount isReqDurObs (fun ls v => rfl)
  have l2 := hcount isReqCtrInc (fun ls v => rfl)
  have l3 := hcount isOutTokInc (fun ls v => rfl)
  have l4 := hcount isModelLatObs (fun ls v => rfl)
  obtain ⟨t1, t2, t3, t4, _⟩ := terminalOps_countP (llamaCond (resolveModel req dm) b)
    (resolveModel req dm) "POST" path startT s (chatLoop req dm b pes s)
  constructor
  · intro h
    have h' : (chatLoop req dm b pes s).aborted = false := h
    refine ⟨?_, ?_, ?_, ?_⟩ <;>
      simp [handleChat_post_ops, chatOps, h', List.countP_cons, List.countP_append,
        l1, l2, l3, l4, t1, t2, t3, t4, isReqDurObs, isOutTokInc, isReqCtrInc,
        isModelLatObs]
  · intro h
    have h' : (chatLoop req dm b pes s).aborted = true := h
    refine ⟨?_, ?_, ?_, ?_⟩ <;>
      simp [handleChat_post_ops, chatOps, h', List.countP_cons, List.countP_append,
        l1, l2, l3, l4, isReqDurObs, isOutTokInc, isReqCtrInc, isModelLatObs]

/-- Witness for C2: on a stream with all writes succeeding the four terminal
recordings happen once; on the disconnecting stream they happen zero times. -/
theorem C2_terminal_accounting_witness :
    ((handleChat "POST" "/chat" (some exReqEmpty) "m" "b" 0 0 w1Stream).ops.countP
        isReqDurObs = 1 ∧
      (handleChat "POST" "/chat" (some exReqEmpty) "m" "b" 0 0 w1Stream).ops.countP
        isReqCtrInc = 1 ∧
      (handleChat "POST" "/chat" (some exReqEmpty) "m" "b" 0 0 w1Stream).ops.countP
        isOutTokInc = 1 ∧
      (handleChat "POST" "/chat" (some exReqEmpty) "m" "b" 0 0 w1Stream).ops.countP
        isModelLatObs = 1) ∧
    ((handleChat "POST" "/x" (some exReqEmpty) "m" "b" 0 0 c2Stream).ops.countP
        isReqDurObs = 0 ∧
      (handleChat "POST" "/x" (some exReqEmpty) "m" "b" 0 0 c2Stream).ops.countP
        isReqCtrInc = 0 ∧
      (handleChat "POST" "/x" (some exReqEmpty) "m" "b" 0 0 c2Stream).ops.countP
        isOutTokInc = 0 ∧
      (handleChat "POST" "/x" (some exReqEmpty) "m" "b" 0 0 c2Stream).ops.countP
        isModelLatObs = 0) :=
  ⟨(C2_terminal_accounting "/chat" exReqEmpty "m" "b" 0 0 w1Stream).1 (by decide),
   (C2_terminal_accounting "/x" exReqEmpty "m" "b" 0 0 c2Stream).2 (by decide)⟩

/-! ### Claim C9: empty stream -/

lemma stepChunk_empty (llama : Bool) (model : String) (pes : ℤ)
    (st : LoopState) (c : Chunk) (hab : st.aborted = false)
    (hne : chunkNonEmpty c = false) :
    stepChunk llama model pes st c = st := by
  obtain ⟨ftt, out, ops, ab⟩ := st
  simp at hab
  subst hab
  simp [stepChunk, hne]

lemma foldl_empty_chunks (llama : Bool) (model : String) (pes : ℤ)
    (chunks : List Chunk) (st : LoopState) (hab : st.aborted = false)
    (h : ∀ c ∈ chunks, chunkNonEmpty c = false) :
    chunks.foldl (stepChunk llama model pes) st = st := by
  induction chunks with
  | nil => rfl
  | cons c cs ih =>
    rw [List.foldl_cons,
      stepChunk_empty llama model pes st c hab (h c (List.mem_cons_self _ _))]
    exact ih (fun c' hc' => h c' (List.mem_cons_of_mem _ hc'))

lemma chatLoop_empty (req : ChatRequest) (dm b : String) (pes : ℤ)
    (s : StreamInfo) (h : ∀ c ∈ s.chunks, chunkNonEmpty c = false) :
    chatLoop req dm b pes s = ⟨none, 0, [], false⟩ :=
  foldl_empty_chunks _ _ _ s.chunks ⟨none, 0, [], false⟩ rfl h

/-- Claim C9 (confirmed): when the upstream stream produces no non-empty
content delta, the recorded output-token count is exactly 0 (the one
output-direction increment carries 0), no time-to-first-token observation is
made, and the guarded tokens-per-second write never happens — the division is
unreachable. -/
theorem C9_empty_stream (path : String) (req : ChatRequest) (dm b : String)
    (startT pes : ℤ) (s : StreamInfo)
    (h : ∀ c ∈ s.chunks, chunkNonEmpty c = false) :
    (chatLoop req dm b pes s).outputTokens = 0 ∧
    (handleChat "POST" path (some req) dm b startT pes s).ops.countP isFirstTokObs = 0 ∧
    (handleChat "POST" path (some req) dm b startT pes s).ops.countP isPromptEvalObs = 0 ∧
    (handleChat "POST" path (some req) dm b startT pes s).ops.countP isTpsSet = 0 ∧
    outTokenValues (handleChat "POST" path (some req) dm b startT pes s).ops = [0] := by
  have hloop := chatLoop_empty req dm b pes s h
  refine ⟨by rw [hloop], ?_, ?_, ?_, ?_⟩ <;>
    simp [handleChat_post_ops, chatOps, hloop, terminalOps, sinceFirst,
      outTokenValues, List.countP_cons, List.countP_append, isFirstTokObs,
      isPromptEvalObs, isTpsSet]

/-- Witness for C9 at a concrete stream whose two chunks are an empty-choice
chunk and an empty-content chunk. -/
theorem C9_empty_stream_witness :
    (chatLoop exReqEmpty "llama3" "b" 0 c9Stream).outputTokens = 0 ∧
    (handleChat "POST" "/chat" (some exReqEmpty) "llama3" "b" 0 0 c9Stream).ops.countP
      isFirstTokObs = 0 ∧
    (handleChat "POST" "/chat" (some exReqEmpty) "llama3" "b" 0 0 c9Stream).ops.countP
      isPromptEvalObs = 0 ∧
    (handleChat "POST" "/chat" (some exReqEmpty) "llama3" "b" 0 0 c9Stream).ops.countP
      isTpsSet = 0 ∧
    outTokenValues (handleChat "POST" "/chat" (some exReqEmpty) "llama3" "b" 0 0
      c9Stream).ops = [0] :=
  C9_empty_stream "/chat" exReqEmpty "llama3" "b" 0 0 c9Stream (by decide)

/-! ### Tokens-per-second lemmas -/

lemma terminalOps_tps_of_true (llama : Bool) (model method path : String)
    (startT : ℤ) (s : StreamInfo) (L : LoopState)
    (hcond : (llama && (decide (sinceFirst s.endTime L.firstTokenTime > 0) &&
      decide (L.outputTokens > 0))) = true) :
    (terminalOps llama model method path startT s L).countP isTpsSet = 1 := by
  simp only [terminalOps, hcond]
  rcases hftt : L.firstTokenTime with _ | t <;>
    simp [hftt, List.countP_append, List.countP_cons, isTpsSet]

lemma terminalOps_tps_of_false (llama : Bool) (model method path : String)
    (startT : ℤ) (s : StreamInfo) (L : LoopState)
    (hcond : (llama && (decide (sinceFirst s.endTime L.firstTokenTime > 0) &&
      decide (L.outputTokens > 0))) = false) :
    (terminalOps llama model method path startT s L).countP isTpsSet = 0 := by
  simp only [terminalOps, hcond]
  rcases hftt : L.firstTokenTime with _ | t <;>
    simp [hftt, List.countP_append, List.countP_cons, isTpsSet]

lemma terminalOps_tpsValues_of_true (llama : Bool) (model method path : String)
    (startT : ℤ) (s : StreamInfo) (L : LoopState)
    (hcond : (llama && (decide (sinceFirst s.endTime L.firstTokenTime > 0) &&
      decide (L.outputTokens > 0))) = true) :
    tpsValues (terminalOps llama model method path startT s L)
      = [(L.outputTokens : ℚ) / seconds (sinceFirst s.endTime L.firstTokenTime)] := by
  simp only [terminalOps, hcond]
  rcases hftt : L.firstTokenTime with _ | t <;>
    simp [hftt, tpsValues, List.filterMap_append, List.filterMap_cons]

/-! ### Claim C5: llama.cpp detection condition -/

/-- Claim C5 (corrected): the claim's condition is a case-insensitive match of
"llama" or "llama.cpp" against the model or the base URL. Here the base URL
"http://LLAMA.CPP/v1" satisfies the claim's condition, yet the relay — whose
base-URL check is case-sensitive and for "llama.cpp" only, and whose
case-insensitive check applies to the model name only — records neither
llama.cpp series on a stream with a non-empty chunk. -/
theorem C5_counterexample :
    llamaCondSpec "gpt-4" "http://LLAMA.CPP/v1" = true ∧
    llamaCond "gpt-4" "http://LLAMA.CPP/v1" = false ∧
    (handleChat "POST" "/chat" (some exReqEmpty) "gpt-4" "http://LLAMA.CPP/v1"
      0 0 c5Stream).ops.countP isPromptEvalObs = 0 ∧
    (handleChat "POST" "/chat" (some exReqEmpty) "gpt-4" "http://LLAMA.CPP/v1"
      0 0 c5Stream).ops.countP isTpsSet = 0 := by decide

/-- Claim C5 (amended): the llama.cpp-specific recordings happen only when the
lowered resolved model name contains "llama" or the base URL contains the
case-SENSITIVE substring "llama.cpp". When that condition fails, neither
series is written; when it holds, the prompt-evaluation observation is made
exactly once as soon as a first non-empty chunk exists, and the
tokens-per-second gauge is written exactly once provided the handler was not
aborted, the elapsed time since the first token is positive and the output
count is positive. -/
theorem C5_llama_condition (path : String) (req : ChatRequest) (dm b : String)
    (startT pes : ℤ) (s : StreamInfo) :
    (llamaCond (resolveModel req dm) b = false →
      (handleChat "POST" path (some req) dm b startT pes s).ops.countP
        isPromptEvalObs = 0 ∧
      (handleChat "POST" path (some req) dm b startT pes s).ops.countP
        isTpsSet = 0) ∧
    (llamaCond (resolveModel req dm) b = true →
      (chatLoop req dm b pes s).firstTokenTime.isSome = true →
      (handleChat "POST" path (some req) dm b startT pes s).ops.countP
        isPromptEvalObs = 1) ∧
    (llamaCond (resolveModel req dm) b = true →
      chatAborted req dm b pes s = false →
      sinceFirst s.endTime (chatLoop req dm b pes s).firstTokenTime > 0 →
      (chatLoop req dm b pes s).outputTokens > 0 →
      (handleChat "POST" path (some req) dm b startT pes s).ops.countP
        isTpsSet = 1) := by
  obtain ⟨hmem, hcount, hsum⟩ := chatLoop_ops_facts req dm b pes s
  have hpe : (chatLoop req dm b pes s).ops.countP isPromptEvalObs
      = if llamaCond (resolveModel req dm) b &&
          (chatLoop req dm b pes s).firstTokenTime.isSome then 1 else 0 :=
    runLoop_promptEval_count _ _ _ _
  have hlooptps : (chatLoop req dm b pes s).ops.countP isTpsSet = 0 :=
    hcount isTpsSet (fun ls v => rfl)
  obtain ⟨_, _, _, _, htpe⟩ := terminalOps_countP (llamaCond (resolveModel req dm) b)
    (resolveModel req dm) "POST" path startT s (chatLoop req dm b pes s)
  refine ⟨?_, ?_, ?_⟩
  · intro hl
    have hpe0 : (chatLoop req dm b pes s).ops.countP isPromptEvalObs = 0 := by
      rw [hpe, hl]; simp
    have hcondf : (llamaCond (resolveModel req dm) b &&
        (decide (sinceFirst s.endTime (chatLoop req dm b pes s).firstTokenTime > 0) &&
          decide ((chatLoop req dm b pes s).outputTokens > 0))) = false := by
      rw [hl]; simp
    have https := terminalOps_tps_of_false (llamaCond (resolveModel req dm) b)
      (resolveModel req dm) "POST" path startT s (chatLoop req dm b pes s) hcondf
    constructor <;>
      cases habt : (chatLoop req dm b pes s).aborted <;>
      simp [handleChat_post_ops, chatOps, habt, List.countP_cons, List.countP_append,
        hpe0, hlooptps, htpe, https, isPromptEvalObs, isTpsSet]
  · intro hl hsome
    have hpe1 : (chatLoop req dm b pes s).ops.countP isPromptEvalObs = 1 := by
      rw [hpe, hl, hsome]; simp
    cases habt : (chatLoop req dm b pes s).aborted <;>
      simp [handleChat_post_ops, chatOps, habt, List.countP_cons, List.countP_append,
        hpe1, htpe, isPromptEvalObs]
  · intro hl habort hsince hout
    have habt : (chatLoop req dm b pes s).aborted = false := habort
    have hcondt : (llamaCond (resolveModel req dm) b &&
        (decide (sinceFirst s.endTime (chatLoop req dm b pes s).firstTokenTime > 0) &&
          decide ((chatLoop req dm b pes s).outputTokens > 0))) = true := by
      rw [hl]; simp [hsince, hout]
    have https := terminalOps_tps_of_true (llamaCond (resolveModel req dm) b)
      (resolveModel req dm) "POST" path startT s (chatLoop req dm b pes s) hcondt
    simp [handleChat_post_ops, chatOps, habt, List.countP_cons, List.countP_append,
      hlooptps, https, isTpsSet]

/-- Witness for C5: a llama-named model records the prompt-evaluation
observation and the tokens-per-second write exactly once on a two-chunk
stream; a non-matching pair records neither. -/
theorem C5_llama_condition_witness :
    ((handleChat "POST" "/chat" (some exReqEmpty) "llama3" "b" 0 0 w1Stream).ops.countP
        isPromptEvalObs = 1) ∧
    ((handleChat "POST" "/chat" (some exReqEmpty) "llama3" "b" 0 0 w1Stream).ops.countP
        isTpsSet = 1) ∧
    ((handleChat "POST" "/chat" (some exReqEmpty) "gpt-4" "http://x/v1" 0 0
        w1Stream).ops.countP isPromptEvalObs = 0) ∧
    ((handleChat "POST" "/chat" (some exReqEmpty) "gpt-4" "http://x/v1" 0 0
        w1Stream).ops.countP isTpsSet = 0) :=
  ⟨(C5_llama_condition "/chat" exReqEmpty "llama3" "b" 0 0 w1Stream).2.1
      (by decide) (by decide),
   (C5_llama_condition "/chat" exReqEmpty "llama3" "b" 0 0 w1Stream).2.2
      (by decide) (by decide) (by decide) (by decide),
   ((C5_llama_condition "/chat" exReqEmpty "gpt-4" "http://x/v1" 0 0 w1Stream).1
      (by decide)).1,
   ((C5_llama_condition "/chat" exReqEmpty "gpt-4" "http://x/v1" 0 0 w1Stream).1
      (by decide)).2⟩

/-! ### Claim C1: tokens-per-second formula -/

/-- Claim C1 (corrected): on the spec's scenario — base URL containing
"llama.cpp", 10 content chunks over 2 simulated seconds with the first chunk
at 0.2 s — the gauge is set to 10 divided by the 1.8 s elapsed since the
first chunk, i.e. 50/9, which differs from the claim's asserted value
9 / elapsed = 5: the first chunk IS counted in `outputTokens`. -/
theorem C1_counterexample :
    tpsValues (handleChat "POST" "/chat" (some exReqEmpty) "m" "http://llama.cpp/v1"
        0 0 c1Stream).ops = [((10 : ℕ) : ℚ) / seconds 1800000000] ∧
    ((10 : ℕ) : ℚ) / seconds 1800000000 = 50 / 9 ∧
    ¬((50 : ℚ) / 9 = 9 / seconds 1800000000) := by
  refine ⟨rfl, ?_, ?_⟩ <;> norm_num [seconds]

/-- Claim C1 (amended): for a llama-matched request whose stream was fully
relayed (no client-write abort), with first non-empty chunk at time `t`,
positive elapsed time and at least one non-empty chunk, the tokens-per-second
gauge is written exactly once with value `n / seconds (endTime - t)` where
`n` counts every non-empty content delta INCLUDING the first (for 10 chunks:
10/elapsed, not 9/elapsed). -/
theorem C1_tokens_per_second (path : String) (req : ChatRequest) (dm b : String)
    (startT pes : ℤ) (s : StreamInfo) (t : ℤ)
    (habort : chatAborted req dm b pes s = false)
    (hllama : llamaCond (resolveModel req dm) b = true)
    (hft : (chatLoop req dm b pes s).firstTokenTime = some t)
    (helapsed : 0 < s.endTime - t)
    (hout : 0 < s.chunks.countP chunkNonEmpty) :
    tpsValues (handleChat "POST" path (some req) dm b startT pes s).ops
      = [(s.chunks.countP chunkNonEmpty : ℚ) / seconds (s.endTime - t)] := by
  have habt : (chatLoop req dm b pes s).aborted = false := habort
  have houtTok : (chatLoop req dm b pes s).outputTokens = s.chunks.countP chunkNonEmpty :=
    runLoop_outputTokens _ _ _ _ habt
  have hsince : sinceFirst s.endTime (chatLoop req dm b pes s).firstTokenTime
      = s.endTime - t := by rw [hft]; rfl
  have hcondt : (llamaCond (resolveModel req dm) b &&
      (decide (sinceFirst s.endTime (chatLoop req dm b pes s).firstTokenTime > 0) &&
        decide ((chatLoop req dm b pes s).outputTokens > 0))) = true := by
    rw [hllama, hsince, houtTok]; simp [helapsed, hout]
  have htv := terminalOps_tpsValues_of_true (llamaCond (resolveModel req dm) b)
    (resolveModel req dm) "POST" path startT s (chatLoop req dm b pes s) hcondt
  rw [houtTok, hsince] at htv
  obtain ⟨hmem, hcount, hsum⟩ := chatLoop_ops_facts req dm b pes s
  have hloopnil : tpsValues (chatLoop req dm b pes s).ops = [] := by
    rw [tpsValues, List.filterMap_eq_nil_iff]
    intro op hop
    obtain ⟨ls, v, rfl⟩ := hmem op hop
    rfl
  have hchat : (handleChat "POST" path (some req) dm b startT pes s).ops
      = MetricOp.inc .chatTokensCounter ["input", resolveModel req dm]
          ((inputTokens req : ℕ) : ℚ)
        :: ((chatLoop req dm b pes s).ops
          ++ terminalOps (llamaCond (resolveModel req dm) b) (resolveModel req dm)
              "POST" path startT s (chatLoop req dm b pes s)) := by
    rw [handleChat_post_ops]
    simp [chatOps, habt]
  rw [hchat]
  show tpsValues ((chatLoop req dm b pes s).ops
    ++ terminalOps (llamaCond (resolveModel req dm) b) (resolveModel req dm)
        "POST" path startT s (chatLoop req dm b pes s)) = _
  simp only [tpsValues] at hloopnil htv ⊢
  rw [List.filterMap_append, hloopnil, htv]
  simp

/-- Witness for C1 at a two-chunk stream: first token at 1 s, end at 2 s,
two non-empty chunks, so the gauge value is 2 / seconds 1000000000 = 2. -/
theorem C1_tokens_per_second_witness :
    tpsValues (handleChat "POST" "/chat" (some exReqEmpty) "llama3" "b" 0 0
        w1Stream).ops
      = [(List.countP chunkNonEmpty w1Stream.chunks : ℚ)
          / seconds (w1Stream.endTime - 1000000000)] :=
  C1_tokens_per_second "/chat" exReqEmpty "llama3" "b" 0 0 w1Stream
    1000000000 (by decide) (by decide) (by decide) (by decide) (by decide)

/-! ### Claim C3: request accounting -/

lemma chatOps_deltas (path : String) (req : ChatRequest) (dm b : String)
    (startT pes : ℤ) (s : StreamInfo)
    (h : (chatLoop req dm b pes s).aborted = false) :
    ((chatOps path req dm b startT pes s).map (opIncDelta .requestCounter)).sum = 1 ∧
    ((chatOps path req dm b startT pes s).map (opGaugeDelta activeKey)).sum = 0 ∧
    (∀ op ∈ chatOps path req dm b startT pes s, opSetsGaugeAt activeKey op = false) := by
  obtain ⟨hmem, hcount, hsum⟩ := chatLoop_ops_facts req dm b pes s
  have hs1 : ((chatLoop req dm b pes s).ops.map (opIncDelta .requestCounter)).sum = 0 :=
    hsum _ (fun ls v => rfl)
  have hs2 : ((chatLoop req dm b pes s).ops.map (opGaugeDelta activeKey)).sum = 0 :=
    hsum _ (fun ls v => rfl)
  obtain ⟨t1, t2, t3⟩ := terminalOps_deltas (llamaCond (resolveModel req dm) b)
    (resolveModel req dm) "POST" path startT s (chatLoop req dm b pes s)
  refine ⟨?_, ?_, ?_⟩
  · simp [chatOps, h, List.map_append, List.sum_append, hs1, t1, opIncDelta]
  · simp [chatOps, h, List.map_append, List.sum_append, hs2, t2, opGaugeDelta]
  · intro op hop
    simp only [chatOps, h, Bool.false_eq_true, if_false, List.mem_cons,
      List.mem_append] at hop
    rcases hop with rfl | hop | hop
    · rfl
    · obtain ⟨ls, v, rfl⟩ := hmem op hop
      rfl
    · exact t3 op hop

lemma callOps_deltas (dm b : String) (c : ChatCall)
    (h : chatAborted c.req dm b c.promptEvalStart c.stream = false) :
    ((callOps dm b c).map (opIncDelta .requestCounter)).sum = 2 ∧
    ((callOps dm b c).map (opGaugeDelta activeKey)).sum = 0 ∧
    (∀ op ∈ callOps dm b c, opSetsGaugeAt activeKey op = false) := by
  have h' : (chatLoop c.req dm b c.promptEvalStart c.stream).aborted = false := h
  obtain ⟨d1, d2, d3⟩ := chatOps_deltas c.path c.req dm b c.startT c.promptEvalStart
    c.stream h'
  refine ⟨?_, ?_, ?_⟩
  · simp [callOps, middlewareWrap, handleChat_post_ops, List.map_append,
      List.sum_append, d1, opIncDelta, opGaugeDelta]
    norm_num
  · simp only [activeKey] at d2
    simp [callOps, middlewareWrap, handleChat_post_ops, List.map_append,
      List.sum_append, d2, opIncDelta, opGaugeDelta, activeKey]
  · intro op hop
    simp only [callOps, middlewareWrap, handleChat_post_ops, List.mem_cons,
      List.mem_append, List.mem_singleton, List.mem_nil_iff, or_false] at hop
    rcases hop with rfl | hop | rfl | rfl | rfl
    · rfl
    · exact d3 op hop
    · rfl
    · rfl
    · rfl

lemma callOps_state (dm b : String) (c : ChatCall) (st : MetricState)
    (h : chatAborted c.req dm b c.promptEvalStart c.stream = false) :
    counterSumOver (applyOps st (callOps dm b c)) .requestCounter
      = counterSumOver st .requestCounter + 2 ∧
    getGaugeValue (applyOps st (callOps dm b c)) activeKey
      = getGaugeValue st activeKey := by
  obtain ⟨d1, d2, d3⟩ := callOps_deltas dm b c h
  constructor
  · rw [counterSum_applyOps, d1]
  · rw [gauge_applyOps _ _ _ d3, d2, add_zero]

lemma calls_state (dm b : String) :
    ∀ calls : List ChatCall,
      (∀ c ∈ calls, chatAborted c.req dm b c.promptEvalStart c.stream = false) →
      ∀ st : MetricState,
        counterSumOver (applyOps st ((calls.map (callOps dm b)).flatten)) .requestCounter
          = counterSumOver st .requestCounter + 2 * calls.length ∧
        getGaugeValue (applyOps st ((calls.map (callOps dm b)).flatten)) activeKey
          = getGaugeValue st activeKey := by
  intro calls
  induction calls with
  | nil => intro _ st; simp [applyOps]
  | cons c cs ih =>
    intro h st
    obtain ⟨s1, s2⟩ := callOps_state dm b c st (h c (List.mem_cons_self _ _))
    obtain ⟨r1, r2⟩ := ih (fun c' hc' => h c' (List.mem_cons_of_mem _ hc'))
      (applyOps st (callOps dm b c))
    have happ : applyOps st ((List.map (callOps dm b) (c :: cs)).flatten)
        = applyOps (applyOps st (callOps dm b c)) ((cs.map (callOps dm b)).flatten) := by
      simp [applyOps, List.foldl_append]
    rw [happ]
    refine ⟨?_, by rw [r2, s2]⟩
    rw [r1, s1]
    simp only [List.length_cons]
    push_cast
    ring

/-- Claim C3 (corrected): one completed `/chat` request leaves the active
gauge at 0 but increments `aiwatch_http_requests_total` TWICE — once in the
handler and once in the middleware — so the claim's "by exactly N" fails at
N = 1 where the counter reads 2. -/
theorem C3_counterexample :
    counterSumOver (applyOps initState (callOps "m" "b" c3Call)) .requestCounter = 2 ∧
    ¬((2 : ℚ) = 1) ∧
    getGaugeValue (applyOps initState (callOps "m" "b" c3Call)) activeKey = 0 := by
  obtain ⟨s1, s2⟩ := callOps_state "m" "b" c3Call initState (by decide)
  refine ⟨?_, by norm_num, ?_⟩
  · rw [s1]
    norm_num [counterSumOver, sumOverL, initState]
  · rw [s2]; rfl

/-- Claim C3 (amended): after N completed `/chat` requests (decoded, fully
relayed) the active-request gauge reads 0 and the HTTP request counter summed
over all label combinations has grown by exactly 2N: the handler and the
middleware each increment it once per request. -/
theorem C3_request_accounting (dm b : String) (calls : List ChatCall)
    (h : ∀ c ∈ calls, chatAborted c.req dm b c.promptEvalStart c.stream = false) :
    getGaugeValue (applyOps initState ((calls.map (callOps dm b)).flatten)) activeKey = 0 ∧
    counterSumOver (applyOps initState ((calls.map (callOps dm b)).flatten)) .requestCounter
      = 2 * calls.length := by
  obtain ⟨h1, h2⟩ := calls_state dm b calls h initState
  refine ⟨by rw [h2]; rfl, ?_⟩
  rw [h1]
  norm_num [counterSumOver, sumOverL, initState]

/-- Witness for C3 with a single completed call. -/
theorem C3_request_accounting_witness :
    getGaugeValue (applyOps initState (([c3Call].map (callOps "m" "b")).flatten))
      activeKey = 0 ∧
    counterSumOver (applyOps initState (([c3Call].map (callOps "m" "b")).flatten))
      .requestCounter = 2 * [c3Call].length :=
  C3_request_accounting "m" "b" [c3Call] (by decide)

/-! ### Claim C8: unwritten series read zero -/

/-- Claim C8 (confirmed): a label tuple never written reads as zero — counter
and gauge reads yield 0 and the histogram mean of an empty series is 0; the
read helpers never produce an error. -/
theorem C8_unwritten_reads_zero (ops : List MetricOp) (m : MetricName)
    (ls : List String) (h : ∀ op ∈ ops, opKey op ≠ (m, ls)) :
    getCounterValueL (applyOps initState ops) m ls = 0 ∧
    getGaugeValue (applyOps initState ops) (m, ls) = 0 ∧
    getHistMean (applyOps initState ops) (m, ls) = 0 := by
  obtain ⟨h1, h2, h3⟩ := reads_applyOps_ne ops initState (m, ls) h
  refine ⟨h1.trans rfl, h2.trans rfl, ?_⟩
  have h3' : lookupD (applyOps initState ops).hists (m, ls) (0, 0) = (0, 0) :=
    h3.trans rfl
  simp only [Prod.mk_zero_zero] at h3'
  simp [getHistMean, h3']

/-- Witness for C8: after three unrelated writes, the never-written output
token series reads zero in all three helpers. -/
theorem C8_unwritten_reads_zero_witness :
    getCounterValueL (applyOps initState c8Ops) .chatTokensCounter ["output", "m"] = 0 ∧
    getGaugeValue (applyOps initState c8Ops) (.chatTokensCounter, ["output", "m"]) = 0 ∧
    getHistMean (applyOps initState c8Ops) (.chatTokensCounter, ["output", "m"]) = 0 :=
  C8_unwritten_reads_zero c8Ops .chatTokensCounter ["output", "m"] (by decide)

/-! ### Claim C10: llamaCppMetrics nullability -/

/-- Claim C10 (corrected): with a default model that is not llama-matched,
the context-size gauge can read 4096 while the summary still reports
`llamaCppMetrics` as null — null is NOT equivalent to a zero context-size
gauge. -/
theorem C10_counterexample :
    getGaugeValue c10State (.llamacppContextSize, ["gpt-4"]) = ((4096 : ℤ) : ℚ) ∧
    ¬(((4096 : ℤ) : ℚ) = 0) ∧
    (metricsSummary c10State "gpt-4" "http://backend:8080").llamaCppMetrics = none := by
  refine ⟨rfl, by norm_num, rfl⟩

/-- Claim C10 (amended): the summary reports `llamaCppMetrics` as null
exactly when the default model/base URL is not llama-matched OR the
int-truncated context-size gauge for the default model reads 0. -/
theorem C10_llamacpp_null_iff (st : MetricState) (dm b : String) :
    (metricsSummary st dm b).llamaCppMetrics = none
      ↔ (llamaCond dm b = false ∨
          goInt (getGaugeValue st (.llamacppContextSize, [dm])) = 0) := by
  cases hcond : llamaCond dm b
  · simp [metricsSummary, hcond]
  · simp only [metricsSummary, hcond, if_true]
    by_cases hz : goInt (getGaugeValue st (.llamacppContextSize, [dm])) = 0 <;>
      simp [getLlamaCppMetrics, hz]

end Aiwatch
